import Mathlib

/-!
Verification of the Maps repository (a cross-platform map-display screen).

The development shallowly embeds the three source files of `src/app`:

* the screen component `PlatformMap` / `HomeScreen` (first file),
* the web `Maps` component built on the Google Maps JavaScript API
  (second file), and
* the native `Maps` component built on `react-native-maps` (third file).

Numbers that the code stores in state (coordinates, viewport deltas) are
modelled as rationals; the one real-valued computation in the code, the
zoom level `Math.log2(360 / latitudeDelta) - 2.5`, is modelled over the
reals.  React component behaviour is modelled as an explicit state
machine: component state and mutable refs become record fields, each
`useEffect` body becomes a function on states, and React's
run-effects-whose-dependencies-changed rule is applied after every state
update.  Asynchronous callbacks (geolocation results, script load or
failure, prop changes from the parent) become events of a step relation.
-/

/-- A map viewport, as in the `initialRegion` / `Region` shape used by both
map implementations: a center coordinate plus latitude/longitude spans. -/
structure Region where
  latitude : ℚ
  longitude : ℚ
  latitudeDelta : ℚ
  longitudeDelta : ℚ
deriving DecidableEq, Repr, Inhabited

/-- A plain coordinate pair, as carried by a geolocation position reading
(`position.coords` on web, `location.coords` on native). -/
structure Coords where
  latitude : ℚ
  longitude : ℚ
deriving DecidableEq, Repr, Inhabited

/-- The fixed fallback region.  Both the web and the native component
declare this same literal (`defaultRegion`): latitude 37.78825,
longitude -122.4324, latitudeDelta 0.0922, longitudeDelta 0.0421.
(`mkRat` spellings keep the values kernel-computable; the equalities with
the decimal literals are proved in `defaultRegion_eq`.) -/
def defaultRegion : Region :=
  { latitude := mkRat 3778825 100000
    longitude := mkRat (-1224324) 10000
    latitudeDelta := mkRat 922 10000
    longitudeDelta := mkRat 421 10000 }

/-- The zoom level computed by the web map initialization effect:
`const zoom = Math.log2(360 / mapRegion.latitudeDelta) - 2.5`. -/
noncomputable def zoom (latitudeDelta : ℝ) : ℝ :=
  Real.logb 2 (360 / latitudeDelta) - 2.5

/-! ## Web map component (`Maps`, Google Maps JavaScript API) -/

/-- The browser environment seen by the web component's location effect:
whether `navigator` is defined and whether `navigator.geolocation` exists. -/
structure WebEnv where
  navigatorDefined : Bool
  geolocationSupported : Bool
deriving DecidableEq, Repr

/-- Props of the web `Maps` component (`WebMobileMapProps`).  Both props
are optional; `showUserLocation` defaults to `true` on destructuring. -/
structure WebProps where
  initialRegion : Option Region
  showUserLocation : Option Bool
deriving DecidableEq, Repr

/-- A `google.maps.Map` instance as far as the component observes it: the
center and zoom input it was constructed with.  `id` numbers construction
order so that distinct constructed instances are distinguishable. -/
structure GMap where
  id : ℕ
  center : Coords
  zoomLatDelta : ℚ
deriving DecidableEq, Repr

/-- A `google.maps.Marker` instance: its current position and the map
instance it is attached to (`none` after `setMap(null)`). -/
structure GMarker where
  pos : Coords
  mapId : Option ℕ
deriving DecidableEq, Repr

/-- The state of one mounted web `Maps` component.  `position`,
`errorMsg` and `mapLoaded` are the three `useState` cells;
`googleAvailable` models whether `window.google?.maps` is defined;
`googleMap` and `userMarker` are the two instance refs; `scriptInjected`
and `scriptInDoc` track the script element appended by the script effect;
`pendingGeo` counts outstanding `getCurrentPosition` callbacks.  The
remaining fields count observable actions for the history-dependent
properties: issued geolocation queries, map constructions, marker
constructions and marker removals (`setMap(null)` calls). -/
structure WebState where
  initialRegion : Option Region
  showUserLocation : Bool
  position : Option Coords
  errorMsg : Option String
  mapLoaded : Bool
  googleAvailable : Bool
  googleMap : Option GMap
  userMarker : Option GMarker
  scriptInjected : Bool
  scriptInDoc : Bool
  pendingGeo : ℕ
  geoRequests : ℕ
  mapConstructions : ℕ
  markerCreations : ℕ
  markerRemovals : ℕ
deriving DecidableEq, Repr, Inhabited

/-- Error text set when `navigator.geolocation` is absent. -/
def geoUnsupportedMsg : String := "Geolocation is not supported by this browser"

/-- Error text template of the `getCurrentPosition` failure callback. -/
def geoErrorMsg (m : String) : String := "Error getting location: " ++ m

/-- Error text set by the script element's `onerror` callback. -/
def scriptFailMsg : String := "Failed to load Google Maps"

/-- The location effect body (deps `[showUserLocation]`): when user
location is wanted and `navigator.geolocation` exists, issue one
`getCurrentPosition` request (its callbacks arrive later as events);
when it is wanted but geolocation is unsupported, record the error. -/
def runLocationEffect (env : WebEnv) (s : WebState) : WebState :=
  if s.showUserLocation && env.navigatorDefined && env.geolocationSupported then
    { s with pendingGeo := s.pendingGeo + 1, geoRequests := s.geoRequests + 1 }
  else if s.showUserLocation && env.navigatorDefined && !env.geolocationSupported then
    { s with errorMsg := some geoUnsupportedMsg }
  else s

/-- The script loading effect body (deps `[]`, so it runs exactly once per
mount): if `window.google?.maps` is already defined, mark the map SDK as
loaded; otherwise create a script element and append it to the head. -/
def runScriptEffect (s : WebState) : WebState :=
  if s.googleAvailable then { s with mapLoaded := true }
  else { s with scriptInjected := true, scriptInDoc := true }

/-- Whether `mapRef.current` is non-null, i.e. whether the render that
committed `snap` produced the map `div` (it does iff no error message is
shown). -/
def mapRefMounted (s : WebState) : Bool := s.errorMsg.isNone

/-- The viewport fed to the map (`mapRegion`): a position reading if one
exists (with the fixed deltas), else the caller's `initialRegion`, else
the default region. -/
def mapRegion (s : WebState) : Region :=
  match s.position with
  | some c =>
    { latitude := c.latitude, longitude := c.longitude
      latitudeDelta := mkRat 922 10000, longitudeDelta := mkRat 421 10000 }
  | none => s.initialRegion.getD defaultRegion

/-- The map initialization effect body (deps `[mapLoaded,
mapRegion.latitude, mapRegion.longitude, mapRegion.latitudeDelta]`).
`snap` is the render snapshot the effect closed over (component state);
`cur` carries the current ref contents, which the body updates.  Unless
the script has not loaded, the map `div` is unmounted, or
`window.google?.maps` is missing, it constructs a fresh
`google.maps.Map` and stores it in the ref. -/
def runMapInitEffect (snap cur : WebState) : WebState :=
  if !snap.mapLoaded || !mapRefMounted snap || !snap.googleAvailable then cur
  else
    { cur with
      googleMap := some
        { id := cur.mapConstructions + 1
          center := { latitude := (mapRegion snap).latitude
                      longitude := (mapRegion snap).longitude }
          zoomLatDelta := (mapRegion snap).latitudeDelta }
      mapConstructions := cur.mapConstructions + 1 }

/-- The marker effect body (deps `[position, showUserLocation,
mapLoaded]`).  With no map, no position, location display off, or the SDK
missing, it only removes an existing marker when location display is off;
otherwise it creates the marker if the ref is null and repositions the
existing one if not.  `snap` is the closed-over render snapshot, `cur`
the current ref contents. -/
def runMarkerEffect (snap cur : WebState) : WebState :=
  if cur.googleMap.isNone || snap.position.isNone ||
      !snap.showUserLocation || !snap.googleAvailable then
    if cur.userMarker.isSome && !snap.showUserLocation then
      { cur with userMarker := none, markerRemovals := cur.markerRemovals + 1 }
    else cur
  else
    match snap.position, cur.googleMap with
    | some c, some g =>
      match cur.userMarker with
      | none =>
        { cur with userMarker := some { pos := c, mapId := some g.id }
                   markerCreations := cur.markerCreations + 1 }
      | some mk => { cur with userMarker := some { mk with pos := c } }
    | _, _ => cur

/-- Dependency array of the location effect. -/
def depsLocation (s : WebState) : Bool := s.showUserLocation

/-- Dependency array of the map initialization effect. -/
def depsMapInit (s : WebState) : Bool × ℚ × ℚ × ℚ :=
  (s.mapLoaded, (mapRegion s).latitude, (mapRegion s).longitude,
    (mapRegion s).latitudeDelta)

/-- Dependency array of the marker effect. -/
def depsMarker (s : WebState) : Option Coords × Bool × Bool :=
  (s.position, s.showUserLocation, s.mapLoaded)

/-- One post-render effect pass: given the previously rendered state
`prev` and the newly rendered state `snap`, run (in source order) each
effect whose dependency array changed.  The script effect has an empty
dependency array and therefore never re-runs here. -/
def effectPass (env : WebEnv) (prev snap : WebState) : WebState :=
  let s1 := if depsLocation prev ≠ depsLocation snap
            then runLocationEffect env snap else snap
  let s2 := if depsMapInit prev ≠ depsMapInit snap
            then runMapInitEffect snap s1 else s1
  if depsMarker prev ≠ depsMarker snap then runMarkerEffect snap s2 else s2

/-- Mounting the web `Maps` component with props `p` in environment
`env`, where `ga0` says whether `window.google?.maps` is already defined.
All four effects run once against the initial render snapshot; the state
updates they made (`mapLoaded`, possibly `errorMsg`) commit, and effects
whose dependencies changed run again against the second render. -/
def webMount (env : WebEnv) (p : WebProps) (ga0 : Bool) : WebState :=
  let s0 : WebState :=
    { initialRegion := p.initialRegion
      showUserLocation := p.showUserLocation.getD true
      position := none, errorMsg := none, mapLoaded := false
      googleAvailable := ga0, googleMap := none, userMarker := none
      scriptInjected := false, scriptInDoc := false
      pendingGeo := 0, geoRequests := 0, mapConstructions := 0
      markerCreations := 0, markerRemovals := 0 }
  let s1 := runLocationEffect env s0
  let s2 := runScriptEffect s1
  let s3 := runMapInitEffect s0 s2
  let s4 := runMarkerEffect s0 s3
  effectPass env s0 s4

/-- Asynchronous occurrences after mount: geolocation callbacks, script
load/failure callbacks, and prop changes from the parent. -/
inductive WebEvent where
  | geoSuccess (c : Coords)
  | geoError (m : String)
  | scriptLoaded
  | scriptError
  | setShowUserLocation (b : Bool)
  | setInitialRegion (r : Option Region)
deriving DecidableEq, Repr

/-- Step relation of one mounted web component: apply an event's state
update, then run the effects whose dependencies changed.  `none` means
the event cannot occur in state `s` (e.g. a geolocation callback with no
outstanding request, or a script callback when no script was injected). -/
def webStep (env : WebEnv) (s : WebState) : WebEvent → Option WebState
  | .geoSuccess c =>
    if s.pendingGeo = 0 then none
    else
      let s1 := { s with position := some c, pendingGeo := s.pendingGeo - 1 }
      some (effectPass env s s1)
  | .geoError m =>
    if s.pendingGeo = 0 then none
    else
      let s1 := { s with errorMsg := some (geoErrorMsg m)
                         pendingGeo := s.pendingGeo - 1 }
      some (effectPass env s s1)
  | .scriptLoaded =>
    if s.scriptInjected && !s.googleAvailable then
      let s1 := { s with googleAvailable := true, mapLoaded := true }
      some (effectPass env s s1)
    else none
  | .scriptError =>
    if s.scriptInjected && !s.googleAvailable then
      let s1 := { s with errorMsg := some scriptFailMsg }
      some (effectPass env s s1)
    else none
  | .setShowUserLocation b =>
    if s.showUserLocation = b then none
    else
      let s1 := { s with showUserLocation := b }
      some (effectPass env s s1)
  | .setInitialRegion r =>
    if s.initialRegion = r then none
    else
      let s1 := { s with initialRegion := r }
      some (effectPass env s s1)

/-- What the web component returns from render: either the error text or
the map container `div` (a ternary, so never both). -/
inductive WebRender where
  | errorText (msg : String)
  | mapDiv
deriving DecidableEq, Repr

/-- The web component's render output. -/
def webRender (s : WebState) : WebRender :=
  match s.errorMsg with
  | some m => .errorText m
  | none => .mapDiv

/-- The script effect's cleanup, run at unmount: remove the script
element if it is still in the document head. -/
def webUnmount (s : WebState) : WebState :=
  if s.scriptInDoc then { s with scriptInDoc := false } else s

/-- States reachable by one mounted web component. -/
inductive WebReach (env : WebEnv) (p : WebProps) (ga0 : Bool) : WebState → Prop where
  | mount : WebReach env p ga0 (webMount env p ga0)
  | step {s s' : WebState} (e : WebEvent) :
      WebReach env p ga0 s → webStep env s e = some s' → WebReach env p ga0 s'

/-- Whether an event is a prop change (as opposed to an asynchronous
callback the environment delivers). -/
def WebEvent.isPropChange : WebEvent → Bool
  | .setShowUserLocation _ => true
  | .setInitialRegion _ => true
  | _ => false

/-- States reachable by one mounted web component whose props never
change, as in this repository where the only caller renders the
component with a fixed (empty) prop list. -/
inductive WebReachFixed (env : WebEnv) (p : WebProps) (ga0 : Bool) : WebState → Prop where
  | mount : WebReachFixed env p ga0 (webMount env p ga0)
  | step {s s' : WebState} (e : WebEvent) :
      WebReachFixed env p ga0 s → e.isPropChange = false →
      webStep env s e = some s' → WebReachFixed env p ga0 s'

/-- The shared page state the script loading effect interacts with:
whether `window.google?.maps` is defined, and how many provider script
elements sit in the document head. -/
structure PageState where
  googleLoaded : Bool
  providerScripts : ℕ
deriving DecidableEq, Repr

/-- The script loading effect as seen from the page, for one mounting
component: skip when `window.google?.maps` is already defined, otherwise
append a (further) provider script element.  Returns the new page state
and whether this mount injected an element. -/
def pageScriptEffect (pg : PageState) : PageState × Bool :=
  if pg.googleLoaded then (pg, false)
  else ({ pg with providerScripts := pg.providerScripts + 1 }, true)

/-! ## Native map component (`Maps`, react-native-maps) -/

/-- Props of the native `Maps` component (`NativeMobileMapProps`);
`showUserLocation` defaults to `true` on destructuring. -/
structure NativeProps where
  initialRegion : Option Region
  showUserLocation : Option Bool
deriving DecidableEq, Repr

/-- State of one mounted native `Maps` component: the three `useState`
cells (`region`, `location`, `errorMsg`), the resolved
`showUserLocation` prop, whether the mount effect's permission request is
outstanding, and a count of issued permission requests. -/
structure NativeState where
  showUserLocation : Bool
  region : Region
  location : Option Coords
  errorMsg : Option String
  pendingPerm : Bool
  permRequests : ℕ
deriving DecidableEq, Repr, Inhabited

/-- Error text set when the foreground location permission is denied. -/
def permDeniedMsg : String := "Permission to access location was denied"

/-- Error text set when `getCurrentPositionAsync` throws. -/
def nativeLocErrMsg : String := "Error getting current location on native device"

/-- Mounting the native `Maps` component: `region` starts as
`initialRegion || defaultRegion`, and the mount effect requests the
foreground location permission iff `showUserLocation` holds. -/
def nativeMount (p : NativeProps) : NativeState :=
  let sul := p.showUserLocation.getD true
  { showUserLocation := sul
    region := p.initialRegion.getD defaultRegion
    location := none, errorMsg := none
    pendingPerm := sul
    permRequests := if sul then 1 else 0 }

/-- Asynchronous occurrences for the native component: the three
outcomes of the mount effect's permission-and-read sequence, and region
updates from user pan/zoom (`onRegionChangeComplete`). -/
inductive NativeEvent where
  | permissionDenied
  | locationSuccess (c : Coords)
  | locationFailure
  | regionChange (r : Region)
deriving DecidableEq, Repr

/-- Step relation of one mounted native component.  Location outcomes
can only arrive while the mount effect's request is outstanding; region
changes can only arrive while the map view is rendered (no error). -/
def nativeStep (s : NativeState) : NativeEvent → Option NativeState
  | .permissionDenied =>
    if s.pendingPerm then
      some { s with errorMsg := some permDeniedMsg, pendingPerm := false }
    else none
  | .locationSuccess c =>
    if s.pendingPerm then
      some { s with
        location := some c
        region := { latitude := c.latitude, longitude := c.longitude
                    latitudeDelta := mkRat 922 10000, longitudeDelta := mkRat 421 10000 }
        pendingPerm := false }
    else none
  | .locationFailure =>
    if s.pendingPerm then
      some { s with errorMsg := some nativeLocErrMsg, pendingPerm := false }
    else none
  | .regionChange r =>
    if s.errorMsg.isNone then some { s with region := r } else none

/-- What the native component returns from render: the error text, or a
`MapView` with its `region`, its `showsUserLocation` flag and the list
of `Marker` children (one at the reading's coordinates iff a location
was obtained). -/
inductive NativeRender where
  | errorText (msg : String)
  | mapView (region : Region) (showsUserLocation : Bool) (markers : List Coords)
deriving DecidableEq, Repr

/-- The native component's render output. -/
def nativeRender (s : NativeState) : NativeRender :=
  match s.errorMsg with
  | some m => .errorText m
  | none =>
    .mapView s.region s.showUserLocation
      (match s.location with
       | some c => [{ latitude := c.latitude, longitude := c.longitude }]
       | none => [])

/-- States reachable by one mounted native component. -/
inductive NativeReach (p : NativeProps) : NativeState → Prop where
  | mount : NativeReach p (nativeMount p)
  | step {s s' : NativeState} (e : NativeEvent) :
      NativeReach p s → nativeStep s e = some s' → NativeReach p s'

/-! ## Screen component (`PlatformMap`) -/

/-- Props of the `PlatformMap` screen component. -/
structure PlatformMapProps where
  initialRegion : Option Region
  showUserLocation : Option Bool
deriving DecidableEq, Repr

/-- The `PlatformMap` component destructures none of its props and
renders the bare element `<Maps />`: whatever props it receives, the
child `Maps` gets none. -/
def platformMapChildProps (_p : PlatformMapProps) : WebProps :=
  { initialRegion := none, showUserLocation := none }

/-! ## Invariants of the web component -/

/-- The inductive invariant of a mounted web component: the SDK flags are
monotone-consistent, the marker (when present) is owned by a shown-location
state, sits at the last position reading and has a map; a marker exists
whenever location display is on and both a map and a reading exist; and
the number of markers still attached (creations minus removals) is one
exactly when the marker ref is non-null. -/
def WebInv (s : WebState) : Prop :=
  (s.mapLoaded = true → s.googleAvailable = true) ∧
  (s.googleMap.isSome = true → s.googleAvailable = true ∧ s.mapLoaded = true) ∧
  (∀ mk, s.userMarker = some mk →
    s.showUserLocation = true ∧ s.position = some mk.pos ∧ s.googleMap.isSome = true) ∧
  (s.showUserLocation = true → s.googleMap.isSome = true → s.position.isSome = true →
    s.userMarker.isSome = true) ∧
  s.markerCreations = s.markerRemovals + (if s.userMarker.isSome then 1 else 0)

/-- The possible error messages of the web component. -/
def errOK (o : Option String) : Prop :=
  o = none ∨ o = some geoUnsupportedMsg ∨ o = some scriptFailMsg ∨
    ∃ m, o = some (geoErrorMsg m)

/-- What holds forever when the component is mounted with
`showUserLocation = false` and its props never change: no geolocation
query is ever issued, no reading or marker ever exists, and the only
possible error is the script load failure. -/
def WebOffInv (s : WebState) : Prop :=
  s.showUserLocation = false ∧ s.position = none ∧
  s.pendingGeo = 0 ∧ s.geoRequests = 0 ∧
  s.userMarker = none ∧ s.markerCreations = 0 ∧ s.markerRemovals = 0 ∧
  (s.errorMsg = none ∨ s.errorMsg = some scriptFailMsg)

/-! ## Invariants of the native component -/

/-- Inductive invariant of the native component: while the permission
request is outstanding no error and no reading exist; a reading implies
no error and no outstanding request; and the only possible errors are the
permission denial and the location failure. -/
def NativeInv (s : NativeState) : Prop :=
  (s.pendingPerm = true → s.errorMsg = none ∧ s.location = none) ∧
  (s.location.isSome = true → s.errorMsg = none ∧ s.pendingPerm = false) ∧
  (s.errorMsg = none ∨ s.errorMsg = some permDeniedMsg ∨
    s.errorMsg = some nativeLocErrMsg)

/-- With `showUserLocation = false`, the native component never requests
the permission, never obtains a reading, and never records an error. -/
def NativeOffInv (s : NativeState) : Prop :=
  s.showUserLocation = false ∧ s.pendingPerm = false ∧ s.permRequests = 0 ∧
  s.location = none ∧ s.errorMsg = none

/-! ## A concrete execution of the web component

Environment: browser with geolocation, SDK already loaded.  Events: a
first reading at (10, 20), location display toggled off then on, and a
second reading at (30, 40). -/

def wState0 : WebState :=
  webMount { navigatorDefined := true, geolocationSupported := true }
    { initialRegion := none, showUserLocation := none } true

def wState1 : WebState :=
  (webStep { navigatorDefined := true, geolocationSupported := true } wState0
    (.geoSuccess { latitude := 10, longitude := 20 })).getD default

def wState2 : WebState :=
  (webStep { navigatorDefined := true, geolocationSupported := true } wState1
    (.setShowUserLocation false)).getD default

def wState3 : WebState :=
  (webStep { navigatorDefined := true, geolocationSupported := true } wState2
    (.setShowUserLocation true)).getD default

def wState4 : WebState :=
  (webStep { navigatorDefined := true, geolocationSupported := true } wState3
    (.geoSuccess { latitude := 30, longitude := 40 })).getD default

/-! ## Proof development -/

lemma defaultRegion_eq :
    defaultRegion =
      { latitude := 37.78825, longitude := -122.4324
        latitudeDelta := 0.0922, longitudeDelta := 0.0421 } := by
  unfold defaultRegion
  norm_num [Rat.mkRat_eq_div]

lemma div_360_00922 : (360 : ℝ) / 0.0922 = 1800000 / 461 := by norm_num

lemma two_rpow_1194_pow50 : ((2 : ℝ) ^ (11.94 : ℝ)) ^ (50 : ℕ) = (2 : ℝ) ^ (597 : ℕ) := by
  rw [← Real.rpow_natCast ((2 : ℝ) ^ (11.94 : ℝ)) 50,
      ← Real.rpow_mul (by norm_num : (0 : ℝ) ≤ 2),
      ← Real.rpow_natCast (2 : ℝ) 597]
  norm_num

lemma two_rpow_1192_pow25 : ((2 : ℝ) ^ (11.92 : ℝ)) ^ (25 : ℕ) = (2 : ℝ) ^ (298 : ℕ) := by
  rw [← Real.rpow_natCast ((2 : ℝ) ^ (11.92 : ℝ)) 25,
      ← Real.rpow_mul (by norm_num : (0 : ℝ) ≤ 2),
      ← Real.rpow_natCast (2 : ℝ) 298]
  norm_num

lemma zoom_00922_lt : zoom 0.0922 < 9.44 := by
  have hlog : Real.logb 2 ((1800000 : ℝ) / 461) < 11.94 := by
    rw [Real.logb_lt_iff_lt_rpow (by norm_num) (by norm_num)]
    have key : ((1800000 : ℝ) / 461) ^ (50 : ℕ) < ((2 : ℝ) ^ (11.94 : ℝ)) ^ (50 : ℕ) := by
      rw [two_rpow_1194_pow50, div_pow, div_lt_iff₀ (by positivity)]
      norm_num
    exact lt_of_pow_lt_pow_left₀ 50 (Real.rpow_nonneg (by norm_num) _) key
  unfold zoom
  rw [div_360_00922]
  linarith

lemma lt_zoom_00922 : 9.42 < zoom 0.0922 := by
  have hlog : (11.92 : ℝ) < Real.logb 2 ((1800000 : ℝ) / 461) := by
    rw [Real.lt_logb_iff_rpow_lt (by norm_num) (by norm_num)]
    have key : ((2 : ℝ) ^ (11.92 : ℝ)) ^ (25 : ℕ) < ((1800000 : ℝ) / 461) ^ (25 : ℕ) := by
      rw [two_rpow_1192_pow25, div_pow, lt_div_iff₀ (by positivity)]
      norm_num
    exact lt_of_pow_lt_pow_left₀ 25 (by positivity) key
  unfold zoom
  rw [div_360_00922]
  linarith

lemma zoom_char (d : ℝ) (hd : 0 < d) : (2 : ℝ) ^ (zoom d + 2.5) = 360 / d := by
  have h : zoom d + 2.5 = Real.logb 2 (360 / d) := by unfold zoom; ring
  rw [h]
  exact Real.rpow_logb (by norm_num) (by norm_num) (by positivity)

/-! ## Field-preservation toolkit for the web effect bodies -/

lemma runLocationEffect_eta (env : WebEnv) (s : WebState) :
    (runLocationEffect env s).initialRegion = s.initialRegion ∧
    (runLocationEffect env s).showUserLocation = s.showUserLocation ∧
    (runLocationEffect env s).position = s.position ∧
    (runLocationEffect env s).mapLoaded = s.mapLoaded ∧
    (runLocationEffect env s).googleAvailable = s.googleAvailable ∧
    (runLocationEffect env s).googleMap = s.googleMap ∧
    (runLocationEffect env s).userMarker = s.userMarker ∧
    (runLocationEffect env s).scriptInjected = s.scriptInjected ∧
    (runLocationEffect env s).scriptInDoc = s.scriptInDoc ∧
    (runLocationEffect env s).mapConstructions = s.mapConstructions ∧
    (runLocationEffect env s).markerCreations = s.markerCreations ∧
    (runLocationEffect env s).markerRemovals = s.markerRemovals := by
  unfold runLocationEffect
  split <;> [skip; split] <;> simp

lemma runMapInitEffect_eta (snap cur : WebState) :
    (runMapInitEffect snap cur).initialRegion = cur.initialRegion ∧
    (runMapInitEffect snap cur).showUserLocation = cur.showUserLocation ∧
    (runMapInitEffect snap cur).position = cur.position ∧
    (runMapInitEffect snap cur).errorMsg = cur.errorMsg ∧
    (runMapInitEffect snap cur).mapLoaded = cur.mapLoaded ∧
    (runMapInitEffect snap cur).googleAvailable = cur.googleAvailable ∧
    (runMapInitEffect snap cur).userMarker = cur.userMarker ∧
    (runMapInitEffect snap cur).scriptInjected = cur.scriptInjected ∧
    (runMapInitEffect snap cur).scriptInDoc = cur.scriptInDoc ∧
    (runMapInitEffect snap cur).pendingGeo = cur.pendingGeo ∧
    (runMapInitEffect snap cur).geoRequests = cur.geoRequests ∧
    (runMapInitEffect snap cur).markerCreations = cur.markerCreations ∧
    (runMapInitEffect snap cur).markerRemovals = cur.markerRemovals := by
  unfold runMapInitEffect
  split <;> simp

lemma runMarkerEffect_eta (snap cur : WebState) :
    (runMarkerEffect snap cur).initialRegion = cur.initialRegion ∧
    (runMarkerEffect snap cur).showUserLocation = cur.showUserLocation ∧
    (runMarkerEffect snap cur).position = cur.position ∧
    (runMarkerEffect snap cur).errorMsg = cur.errorMsg ∧
    (runMarkerEffect snap cur).mapLoaded = cur.mapLoaded ∧
    (runMarkerEffect snap cur).googleAvailable = cur.googleAvailable ∧
    (runMarkerEffect snap cur).googleMap = cur.googleMap ∧
    (runMarkerEffect snap cur).scriptInjected = cur.scriptInjected ∧
    (runMarkerEffect snap cur).scriptInDoc = cur.scriptInDoc ∧
    (runMarkerEffect snap cur).pendingGeo = cur.pendingGeo ∧
    (runMarkerEffect snap cur).geoRequests = cur.geoRequests ∧
    (runMarkerEffect snap cur).mapConstructions = cur.mapConstructions := by
  unfold runMarkerEffect
  split
  · split <;> simp
  · split
    · split <;> simp
    · simp

/-- Closed form of mounting the web component: the reading is still
outstanding (or the unsupported error recorded), the script is injected
exactly when the SDK was not already loaded, and the map is constructed
exactly when the SDK was already loaded and no error is shown. -/
lemma webMount_char (env : WebEnv) (p : WebProps) (ga0 : Bool) :
    webMount env p ga0 =
      { initialRegion := p.initialRegion
        showUserLocation := p.showUserLocation.getD true
        position := none
        errorMsg :=
          if p.showUserLocation.getD true && env.navigatorDefined &&
              !env.geolocationSupported then some geoUnsupportedMsg else none
        mapLoaded := ga0
        googleAvailable := ga0
        googleMap :=
          if ga0 && !(p.showUserLocation.getD true && env.navigatorDefined &&
              !env.geolocationSupported) then
            some { id := 1
                   center := { latitude := (p.initialRegion.getD defaultRegion).latitude
                               longitude := (p.initialRegion.getD defaultRegion).longitude }
                   zoomLatDelta := (p.initialRegion.getD defaultRegion).latitudeDelta }
          else none
        userMarker := none
        scriptInjected := !ga0
        scriptInDoc := !ga0
        pendingGeo :=
          if p.showUserLocation.getD true && env.navigatorDefined &&
              env.geolocationSupported then 1 else 0
        geoRequests :=
          if p.showUserLocation.getD true && env.navigatorDefined &&
              env.geolocationSupported then 1 else 0
        mapConstructions :=
          if ga0 && !(p.showUserLocation.getD true && env.navigatorDefined &&
              !env.geolocationSupported) then 1 else 0
        markerCreations := 0
        markerRemovals := 0 } := by
  obtain ⟨nav, geo⟩ := env
  cases hsul : p.showUserLocation.getD true <;> cases nav <;> cases geo <;> cases ga0 <;>
    simp [webMount, runLocationEffect, runScriptEffect, runMapInitEffect, runMarkerEffect,
      effectPass, depsLocation, depsMapInit, depsMarker, mapRefMounted, mapRegion, hsul]

lemma webInv_mount (env : WebEnv) (p : WebProps) (ga0 : Bool) :
    WebInv (webMount env p ga0) := by
  rw [webMount_char]
  unfold WebInv
  refine ⟨?_, ?_, ?_, ?_, ?_⟩ <;> simp_all

lemma webInv_geoError {env : WebEnv} {s s' : WebState} {m : String} (h : WebInv s)
    (hs : webStep env s (.geoError m) = some s') : WebInv s' := by
  simp only [webStep] at hs
  split at hs
  · exact absurd hs (by simp)
  · have hstep : s' = effectPass env s
        { s with errorMsg := some (geoErrorMsg m), pendingGeo := s.pendingGeo - 1 } := by
      exact (Option.some.inj hs).symm
    subst hstep
    unfold effectPass
    rw [if_neg (fun hne => hne rfl), if_neg (fun hne => hne rfl),
        if_neg (fun hne => hne rfl)]
    exact h

lemma webInv_scriptError {env : WebEnv} {s s' : WebState} (h : WebInv s)
    (hs : webStep env s .scriptError = some s') : WebInv s' := by
  simp only [webStep] at hs
  split at hs
  · have hstep : s' = effectPass env s { s with errorMsg := some scriptFailMsg } := by
      exact (Option.some.inj hs).symm
    subst hstep
    unfold effectPass
    rw [if_neg (fun hne => hne rfl), if_neg (fun hne => hne rfl),
        if_neg (fun hne => hne rfl)]
    exact h
  · exact absurd hs (by simp)

/-- Running the marker effect on a snapshot/ref pair that carries a
position reading and consistent flags re-establishes the invariant. -/
lemma webInv_runMarker (snap cur : WebState) (c : Coords)
    (ha : cur.position = some c) (hb : snap.position = some c)
    (hsul : cur.showUserLocation = snap.showUserLocation)
    (hga : cur.googleAvailable = snap.googleAvailable)
    (hml : cur.mapLoaded = true → cur.googleAvailable = true)
    (hmp : cur.googleMap.isSome = true → cur.googleAvailable = true ∧ cur.mapLoaded = true)
    (hmk : ∀ mk, cur.userMarker = some mk →
      snap.showUserLocation = true ∧ cur.googleMap.isSome = true)
    (hcnt : cur.markerCreations = cur.markerRemovals +
      (if cur.userMarker.isSome then 1 else 0)) :
    WebInv (runMarkerEffect snap cur) := by
  unfold WebInv runMarkerEffect
  cases hs2 : snap.showUserLocation <;> cases hga2 : snap.googleAvailable <;>
    rcases hm : cur.googleMap with _ | gm <;> rcases hu : cur.userMarker with _ | mk <;>
      simp_all [hb]

lemma webInv_geoSuccess {env : WebEnv} {s s' : WebState} {c : Coords} (h : WebInv s)
    (hs : webStep env s (.geoSuccess c) = some s') : WebInv s' := by
  obtain ⟨h1, h2, h3, h4, h5⟩ := h
  simp only [webStep] at hs
  split at hs
  · exact absurd hs (by simp)
  · have hstep : s' = effectPass env s
        { s with position := some c, pendingGeo := s.pendingGeo - 1 } :=
      (Option.some.inj hs).symm
    subst hstep
    set s1 : WebState := { s with position := some c, pendingGeo := s.pendingGeo - 1 }
      with hs1
    have hloc : ¬ depsLocation s ≠ depsLocation s1 := fun hne => hne rfl
    unfold effectPass
    by_cases hK : depsMarker s ≠ depsMarker s1
    · rw [if_pos hK]
      by_cases hM : depsMapInit s ≠ depsMapInit s1
      · rw [if_pos hM, if_neg hloc]
        have he := runMapInitEffect_eta s1 s1
        refine webInv_runMarker s1 (runMapInitEffect s1 s1) c ?_ rfl ?_ ?_ ?_ ?_ ?_ ?_
        · exact he.2.2.1
        · exact he.2.1
        · exact he.2.2.2.2.2.1
        · intro hml
          rw [he.2.2.2.2.2.1]
          rw [he.2.2.2.2.1] at hml
          exact h1 hml
        · intro hsome
          rw [he.2.2.2.2.2.1, he.2.2.2.2.1]
          unfold runMapInitEffect at hsome
          split at hsome
          · exact h2 hsome
          · rename_i hguard
            simp at hguard
            exact ⟨hguard.2, hguard.1.1⟩
        · intro mk hmk
          rw [he.2.2.2.2.2.2.1] at hmk
          rcases h3 mk hmk with ⟨hx, _, hy⟩
          refine ⟨hx, ?_⟩
          unfold runMapInitEffect
          split
          · exact hy
          · simp
        · rw [he.2.2.2.2.2.2.2.2.2.2.2.1, he.2.2.2.2.2.2.2.2.2.2.2.2,
            he.2.2.2.2.2.2.1]
          exact h5
      · rw [if_neg hM, if_neg hloc]
        refine webInv_runMarker s1 s1 c rfl rfl rfl rfl h1 h2 ?_ h5
        intro mk hmk
        rcases h3 mk hmk with ⟨hx, _, hy⟩
        exact ⟨hx, hy⟩
    · rw [if_neg hK]
      have hKeq := not_not.mp hK
      have hpos : s.position = some c := by
        have := congrArg (fun t => t.1) hKeq
        simpa [depsMarker] using this
      have hMeq : depsMapInit s = depsMapInit s1 := by
        simp [depsMapInit, mapRegion, hpos, hs1]
      rw [if_neg (not_not_intro hMeq), if_neg hloc]
      refine ⟨h1, h2, ?_, ?_, h5⟩
      · intro mk hmk
        rcases h3 mk hmk with ⟨hx, hy, hz⟩
        refine ⟨hx, ?_, hz⟩
        have hps1 : s1.position = some c := by rw [hs1]
        rw [hps1, ← hpos]
        exact hy
      · intro ha hb hc2
        exact h4 ha hb (by simp [hpos])

/-- Running the marker effect with no position reading and no marker
preserves the invariant. -/
lemma webInv_noPos (snap cur : WebState)
    (hpos : snap.position = none) (hposc : cur.position = none)
    (hmk : cur.userMarker = none)
    (hml : cur.mapLoaded = true → cur.googleAvailable = true)
    (hmp : cur.googleMap.isSome = true → cur.googleAvailable = true ∧ cur.mapLoaded = true)
    (hcnt : cur.markerCreations = cur.markerRemovals) :
    WebInv (runMarkerEffect snap cur) := by
  unfold WebInv runMarkerEffect
  simp_all [hpos, hmk, hposc]

lemma webInv_scriptLoaded {env : WebEnv} {s s' : WebState} (h : WebInv s)
    (hs : webStep env s .scriptLoaded = some s') : WebInv s' := by
  obtain ⟨h1, h2, h3, h4, h5⟩ := h
  simp only [webStep] at hs
  split at hs
  · rename_i hguard
    simp at hguard
    have hga : s.googleAvailable = false := hguard.2
    have hml : s.mapLoaded = false := by
      cases hml2 : s.mapLoaded
      · rfl
      · rw [h1 hml2] at hga
        exact absurd hga (by simp)
    have hmap : s.googleMap = none := by
      cases hmp2 : s.googleMap
      · rfl
      · have := (h2 (by simp [hmp2])).1
        rw [this] at hga
        exact absurd hga (by simp)
    have hmarker : s.userMarker = none := by
      cases hmk2 : s.userMarker
      · rfl
      · rename_i mk
        have := (h3 mk hmk2).2.2
        rw [hmap] at this
        exact absurd this (by simp)
    have hstep : s' = effectPass env s
        { s with googleAvailable := true, mapLoaded := true } :=
      (Option.some.inj hs).symm
    subst hstep
    set s1 : WebState := { s with googleAvailable := true, mapLoaded := true } with hs1
    have hK : depsMarker s ≠ depsMarker s1 := by
      simp [depsMarker, hs1, hml]
    have hM : depsMapInit s ≠ depsMapInit s1 := by
      simp [depsMapInit, hs1, hml]
    have hloc : ¬ depsLocation s ≠ depsLocation s1 := fun hne => hne rfl
    unfold effectPass
    rw [if_pos hK, if_pos hM, if_neg hloc]
    have he := runMapInitEffect_eta s1 s1
    rcases hposc : s.position with _ | c
    · refine webInv_noPos s1 (runMapInitEffect s1 s1) hposc ?_ ?_ ?_ ?_ ?_
      · rw [he.2.2.1]
        exact hposc
      · rw [he.2.2.2.2.2.2.1]
        exact hmarker
      · intro _
        rw [he.2.2.2.2.2.1]
      · intro _
        rw [he.2.2.2.2.2.1, he.2.2.2.2.1]
        exact ⟨rfl, rfl⟩
      · rw [he.2.2.2.2.2.2.2.2.2.2.2.1, he.2.2.2.2.2.2.2.2.2.2.2.2]
        rw [hmarker] at h5
        simpa using h5
    · refine webInv_runMarker s1 (runMapInitEffect s1 s1) c ?_ hposc ?_ ?_ ?_ ?_ ?_ ?_
      · rw [he.2.2.1]
        exact hposc
      · exact he.2.1
      · exact he.2.2.2.2.2.1
      · intro _
        rw [he.2.2.2.2.2.1]
      · intro _
        rw [he.2.2.2.2.2.1, he.2.2.2.2.1]
        exact ⟨rfl, rfl⟩
      · intro mk hmk
        rw [he.2.2.2.2.2.2.1] at hmk
        simp only [hs1] at hmk
        rw [hmarker] at hmk
        exact absurd hmk (by simp)
      · rw [he.2.2.2.2.2.2.2.2.2.2.2.1, he.2.2.2.2.2.2.2.2.2.2.2.2,
          he.2.2.2.2.2.2.1]
        exact h5
  · exact absurd hs (by simp)

/-- Running the marker effect while location display is off preserves the
invariant: an existing marker is removed, nothing else happens. -/
lemma webInv_sulOff (snap cur : WebState)
    (hsul : snap.showUserLocation = false) (hsulc : cur.showUserLocation = false)
    (hml : cur.mapLoaded = true → cur.googleAvailable = true)
    (hmp : cur.googleMap.isSome = true → cur.googleAvailable = true ∧ cur.mapLoaded = true)
    (hcnt : cur.markerCreations = cur.markerRemovals +
      (if cur.userMarker.isSome then 1 else 0)) :
    WebInv (runMarkerEffect snap cur) := by
  unfold WebInv runMarkerEffect
  rcases hu : cur.userMarker with _ | mk <;> simp_all

lemma webInv_setSul {env : WebEnv} {s s' : WebState} {b : Bool} (h : WebInv s)
    (hs : webStep env s (.setShowUserLocation b) = some s') : WebInv s' := by
  obtain ⟨h1, h2, h3, h4, h5⟩ := h
  simp only [webStep] at hs
  split at hs
  · exact absurd hs (by simp)
  · rename_i hne
    have hstep : s' = effectPass env s { s with showUserLocation := b } :=
      (Option.some.inj hs).symm
    subst hstep
    set s1 : WebState := { s with showUserLocation := b } with hs1
    have hK : depsMarker s ≠ depsMarker s1 := by
      simpa [depsMarker, hs1] using hne
    have hM : ¬ depsMapInit s ≠ depsMapInit s1 := fun hne2 => hne2 rfl
    have hL : depsLocation s ≠ depsLocation s1 := by
      simpa [depsLocation, hs1] using hne
    unfold effectPass
    rw [if_pos hK, if_neg hM, if_pos hL]
    have hl := runLocationEffect_eta env s1
    cases b with
    | false =>
      refine webInv_sulOff s1 (runLocationEffect env s1) rfl ?_ ?_ ?_ ?_
      · rw [hl.2.1]
      · intro hml2
        rw [hl.2.2.2.2.1]
        rw [hl.2.2.2.1] at hml2
        exact h1 hml2
      · intro hsome
        rw [hl.2.2.2.2.1, hl.2.2.2.1]
        rw [hl.2.2.2.2.2.1] at hsome
        exact h2 hsome
      · rw [hl.2.2.2.2.2.2.2.2.2.2.1, hl.2.2.2.2.2.2.2.2.2.2.2, hl.2.2.2.2.2.2.1]
        exact h5
    | true =>
      have hsulf : s.showUserLocation = false := by simpa using hne
      have hmarker : s.userMarker = none := by
        cases hmk2 : s.userMarker
        · rfl
        · have := (h3 _ hmk2).1
          rw [hsulf] at this
          exact absurd this (by simp)
      rcases hposc : s.position with _ | c
      · refine webInv_noPos s1 (runLocationEffect env s1) hposc ?_ ?_ ?_ ?_ ?_
        · rw [hl.2.2.1]
          exact hposc
        · rw [hl.2.2.2.2.2.2.1]
          exact hmarker
        · intro hml2
          rw [hl.2.2.2.2.1]
          rw [hl.2.2.2.1] at hml2
          exact h1 hml2
        · intro hsome
          rw [hl.2.2.2.2.1, hl.2.2.2.1]
          rw [hl.2.2.2.2.2.1] at hsome
          exact h2 hsome
        · rw [hl.2.2.2.2.2.2.2.2.2.2.1, hl.2.2.2.2.2.2.2.2.2.2.2]
          rw [hmarker] at h5
          simpa using h5
      · refine webInv_runMarker s1 (runLocationEffect env s1) c ?_ hposc ?_ ?_ ?_ ?_ ?_ ?_
        · rw [hl.2.2.1]
          exact hposc
        · exact hl.2.1
        · exact hl.2.2.2.2.1
        · intro hml2
          rw [hl.2.2.2.2.1]
          rw [hl.2.2.2.1] at hml2
          exact h1 hml2
        · intro hsome
          rw [hl.2.2.2.2.1, hl.2.2.2.1]
          rw [hl.2.2.2.2.2.1] at hsome
          exact h2 hsome
        · intro mk hmk
          rw [hl.2.2.2.2.2.2.1] at hmk
          simp only [hs1] at hmk
          rw [hmarker] at hmk
          exact absurd hmk (by simp)
        · rw [hl.2.2.2.2.2.2.2.2.2.2.1, hl.2.2.2.2.2.2.2.2.2.2.2, hl.2.2.2.2.2.2.1]
          exact h5

lemma webInv_setInitialRegion {env : WebEnv} {s s' : WebState} {r : Option Region}
    (h : WebInv s) (hs : webStep env s (.setInitialRegion r) = some s') : WebInv s' := by
  obtain ⟨h1, h2, h3, h4, h5⟩ := h
  simp only [webStep] at hs
  split at hs
  · exact absurd hs (by simp)
  · have hstep : s' = effectPass env s { s with initialRegion := r } :=
      (Option.some.inj hs).symm
    subst hstep
    set s1 : WebState := { s with initialRegion := r } with hs1
    have hK : ¬ depsMarker s ≠ depsMarker s1 := fun hne => hne rfl
    have hL : ¬ depsLocation s ≠ depsLocation s1 := fun hne => hne rfl
    unfold effectPass
    rw [if_neg hK]
    by_cases hM : depsMapInit s ≠ depsMapInit s1
    · rw [if_pos hM, if_neg hL]
      have hposn : s.position = none := by
        rcases hp : s.position with _ | c
        · rfl
        · exact absurd (by simp [depsMapInit, mapRegion, hp, hs1]) hM
      have hmarker : s.userMarker = none := by
        cases hmk2 : s.userMarker
        · rfl
        · have := (h3 _ hmk2).2.1
          rw [hposn] at this
          exact absurd this (by simp)
      have he := runMapInitEffect_eta s1 s1
      refine ⟨?_, ?_, ?_, ?_, ?_⟩
      · intro hml2
        rw [he.2.2.2.2.2.1]
        rw [he.2.2.2.2.1] at hml2
        exact h1 hml2
      · intro hsome
        rw [he.2.2.2.2.2.1, he.2.2.2.2.1]
        unfold runMapInitEffect at hsome
        split at hsome
        · exact h2 hsome
        · rename_i hguard
          simp at hguard
          exact ⟨hguard.2, hguard.1.1⟩
      · intro mk hmk
        rw [he.2.2.2.2.2.2.1] at hmk
        simp only [hs1] at hmk
        rw [hmarker] at hmk
        exact absurd hmk (by simp)
      · intro _ _ hp'
        rw [he.2.2.1] at hp'
        simp only [hs1] at hp'
        rw [hposn] at hp'
        exact absurd hp' (by simp)
      · rw [he.2.2.2.2.2.2.2.2.2.2.2.1, he.2.2.2.2.2.2.2.2.2.2.2.2,
          he.2.2.2.2.2.2.1]
        exact h5
    · rw [if_neg hM, if_neg hL]
      exact ⟨h1, h2, h3, h4, h5⟩

lemma webInv_step {env : WebEnv} {s s' : WebState} (e : WebEvent) (h : WebInv s)
    (hs : webStep env s e = some s') : WebInv s' := by
  cases e with
  | geoSuccess c => exact webInv_geoSuccess h hs
  | geoError m => exact webInv_geoError h hs
  | scriptLoaded => exact webInv_scriptLoaded h hs
  | scriptError => exact webInv_scriptError h hs
  | setShowUserLocation b => exact webInv_setSul h hs
  | setInitialRegion r => exact webInv_setInitialRegion h hs

/-- Every reachable state of the web component satisfies the invariant. -/
lemma webReach_inv {env : WebEnv} {p : WebProps} {ga0 : Bool} {s : WebState}
    (h : WebReach env p ga0 s) : WebInv s := by
  induction h with
  | mount => exact webInv_mount env p ga0
  | step e hprev hstep ih => exact webInv_step e ih hstep

lemma webReachFixed_reach {env : WebEnv} {p : WebProps} {ga0 : Bool} {s : WebState}
    (h : WebReachFixed env p ga0 s) : WebReach env p ga0 s := by
  induction h with
  | mount => exact WebReach.mount
  | step e hprev hp hstep ih => exact WebReach.step e ih hstep

/-- The only error message the location effect can add is the
geolocation-unsupported one. -/
lemma runLocationEffect_errorMsg (env : WebEnv) (s : WebState) :
    (runLocationEffect env s).errorMsg = s.errorMsg ∨
    (runLocationEffect env s).errorMsg = some geoUnsupportedMsg := by
  unfold runLocationEffect
  split
  · exact Or.inl rfl
  · split
    · exact Or.inr rfl
    · exact Or.inl rfl

lemma effectPass_errorMsg (env : WebEnv) (prev snap : WebState) :
    (effectPass env prev snap).errorMsg = snap.errorMsg ∨
    (effectPass env prev snap).errorMsg = some geoUnsupportedMsg := by
  have em : ∀ a b : WebState, (runMarkerEffect a b).errorMsg = b.errorMsg :=
    fun a b => (runMarkerEffect_eta a b).2.2.2.1
  have ei : ∀ a b : WebState, (runMapInitEffect a b).errorMsg = b.errorMsg :=
    fun a b => (runMapInitEffect_eta a b).2.2.2.1
  unfold effectPass
  split_ifs <;> simp only [em, ei] <;>
    first
      | exact Or.inl trivial
      | exact runLocationEffect_errorMsg env snap

lemma errOK_effectPass {env : WebEnv} {prev snap : WebState}
    (h : errOK snap.errorMsg) : errOK (effectPass env prev snap).errorMsg := by
  rcases effectPass_errorMsg env prev snap with he | he
  · rwa [he]
  · rw [he]
    exact Or.inr (Or.inl rfl)

/-- Every error ever recorded by the web component is one of the three
boundary errors: geolocation unsupported, geolocation query failure, or
provider script load failure. -/
lemma webReach_errOK {env : WebEnv} {p : WebProps} {ga0 : Bool} {s : WebState}
    (h : WebReach env p ga0 s) : errOK s.errorMsg := by
  induction h with
  | mount =>
    rw [webMount_char]
    dsimp only
    split
    · exact Or.inr (Or.inl rfl)
    · exact Or.inl rfl
  | step e hprev hstep ih =>
    cases e with
    | geoSuccess c =>
      simp only [webStep] at hstep
      split at hstep
      · exact absurd hstep (by simp)
      · rw [← Option.some.inj hstep]
        exact errOK_effectPass ih
    | geoError m =>
      simp only [webStep] at hstep
      split at hstep
      · exact absurd hstep (by simp)
      · rw [← Option.some.inj hstep]
        exact errOK_effectPass (Or.inr (Or.inr (Or.inr ⟨m, rfl⟩)))
    | scriptLoaded =>
      simp only [webStep] at hstep
      split at hstep
      · rw [← Option.some.inj hstep]
        exact errOK_effectPass ih
      · exact absurd hstep (by simp)
    | scriptError =>
      simp only [webStep] at hstep
      split at hstep
      · rw [← Option.some.inj hstep]
        exact errOK_effectPass (Or.inr (Or.inr (Or.inl rfl)))
      · exact absurd hstep (by simp)
    | setShowUserLocation b =>
      simp only [webStep] at hstep
      split at hstep
      · exact absurd hstep (by simp)
      · rw [← Option.some.inj hstep]
        exact errOK_effectPass ih
    | setInitialRegion r =>
      simp only [webStep] at hstep
      split at hstep
      · exact absurd hstep (by simp)
      · rw [← Option.some.inj hstep]
        exact errOK_effectPass ih

/-- With no reading and no marker, the marker effect does nothing. -/
lemma runMarkerEffect_noop (snap cur : WebState) (hpos : snap.position = none)
    (hmk : cur.userMarker = none) : runMarkerEffect snap cur = cur := by
  unfold runMarkerEffect
  simp [hpos, hmk]

lemma webOffInv_effectPass (env : WebEnv) (s s1 : WebState)
    (hsul0 : s1.showUserLocation = false)
    (hpos : s1.position = none) (hmk : s1.userMarker = none)
    (hpend : s1.pendingGeo = 0) (hreq : s1.geoRequests = 0)
    (hcr : s1.markerCreations = 0) (hrm : s1.markerRemovals = 0)
    (herr : s1.errorMsg = none ∨ s1.errorMsg = some scriptFailMsg)
    (hL : depsLocation s = depsLocation s1) :
    WebOffInv (effectPass env s s1) := by
  have hOff1 : WebOffInv s1 := ⟨hsul0, hpos, hpend, hreq, hmk, hcr, hrm, herr⟩
  have he := runMapInitEffect_eta s1 s1
  have hOffInit : WebOffInv (runMapInitEffect s1 s1) := by
    refine ⟨?_, ?_, ?_, ?_, ?_, ?_, ?_, ?_⟩
    · rw [he.2.1]; exact hsul0
    · rw [he.2.2.1]; exact hpos
    · rw [he.2.2.2.2.2.2.2.2.2.1]; exact hpend
    · rw [he.2.2.2.2.2.2.2.2.2.2.1]; exact hreq
    · rw [he.2.2.2.2.2.2.1]; exact hmk
    · rw [he.2.2.2.2.2.2.2.2.2.2.2.1]; exact hcr
    · rw [he.2.2.2.2.2.2.2.2.2.2.2.2]; exact hrm
    · rw [he.2.2.2.1]; exact herr
  have hmkInit : (runMapInitEffect s1 s1).userMarker = none := by
    rw [he.2.2.2.2.2.2.1]; exact hmk
  unfold effectPass
  rw [if_neg (not_not_intro hL)]
  by_cases hM : depsMapInit s ≠ depsMapInit s1 <;>
    by_cases hK : depsMarker s ≠ depsMarker s1
  · rw [if_pos hK, if_pos hM, runMarkerEffect_noop s1 _ hpos hmkInit]
    exact hOffInit
  · rw [if_neg hK, if_pos hM]
    exact hOffInit
  · rw [if_pos hK, if_neg hM, runMarkerEffect_noop s1 s1 hpos hmk]
    exact hOff1
  · rw [if_neg hK, if_neg hM]
    exact hOff1

lemma webOffInv_step {env : WebEnv} {s s' : WebState} {e : WebEvent}
    (hfix : WebOffInv s) (hp : e.isPropChange = false)
    (hs : webStep env s e = some s') : WebOffInv s' := by
  obtain ⟨f1, f2, f3, f4, f5, f6, f7, f8⟩ := hfix
  cases e with
  | geoSuccess c =>
    simp only [webStep] at hs
    rw [if_pos f3] at hs
    exact absurd hs (by simp)
  | geoError m =>
    simp only [webStep] at hs
    rw [if_pos f3] at hs
    exact absurd hs (by simp)
  | scriptLoaded =>
    simp only [webStep] at hs
    split at hs
    · rw [← Option.some.inj hs]
      exact webOffInv_effectPass env s _ f1 f2 f5 f3 f4 f6 f7 f8 rfl
    · exact absurd hs (by simp)
  | scriptError =>
    simp only [webStep] at hs
    split at hs
    · rw [← Option.some.inj hs]
      exact webOffInv_effectPass env s _ f1 f2 f5 f3 f4 f6 f7 (Or.inr rfl) rfl
    · exact absurd hs (by simp)
  | setShowUserLocation b => exact absurd hp (by simp [WebEvent.isPropChange])
  | setInitialRegion r => exact absurd hp (by simp [WebEvent.isPropChange])

/-- Every state reachable with fixed props whose `showUserLocation` is
`false` satisfies the off-invariant. -/
lemma webReachFixed_off {env : WebEnv} {r : Option Region} {ga0 : Bool} {s : WebState}
    (h : WebReachFixed env ⟨r, some false⟩ ga0 s) : WebOffInv s := by
  induction h with
  | mount =>
    rw [webMount_char]
    exact ⟨rfl, rfl, rfl, rfl, rfl, rfl, rfl, Or.inl rfl⟩
  | step e hprev hp hstep ih => exact webOffInv_step ih hp hstep

lemma nativeReach_inv {p : NativeProps} {s : NativeState}
    (h : NativeReach p s) : NativeInv s := by
  induction h with
  | mount =>
    unfold nativeMount NativeInv
    refine ⟨fun _ => ⟨rfl, rfl⟩, by simp, Or.inl rfl⟩
  | step e hprev hstep ih =>
    obtain ⟨i1, i2, i3⟩ := ih
    cases e with
    | permissionDenied =>
      simp only [nativeStep] at hstep
      split at hstep
      · rw [← Option.some.inj hstep]
        rename_i hpend
        refine ⟨by simp, ?_, Or.inr (Or.inl rfl)⟩
        intro hloc
        exact absurd ((i1 hpend).2) (by simp_all)
      · exact absurd hstep (by simp)
    | locationSuccess c =>
      simp only [nativeStep] at hstep
      split at hstep
      · rw [← Option.some.inj hstep]
        rename_i hpend
        exact ⟨by simp, fun _ => ⟨(i1 hpend).1, rfl⟩, i3⟩
      · exact absurd hstep (by simp)
    | locationFailure =>
      simp only [nativeStep] at hstep
      split at hstep
      · rw [← Option.some.inj hstep]
        rename_i hpend
        refine ⟨by simp, ?_, Or.inr (Or.inr rfl)⟩
        intro hloc
        exact absurd ((i1 hpend).2) (by simp_all)
      · exact absurd hstep (by simp)
    | regionChange r =>
      simp only [nativeStep] at hstep
      split at hstep
      · rw [← Option.some.inj hstep]
        exact ⟨i1, i2, i3⟩
      · exact absurd hstep (by simp)

lemma nativeReach_off {r : Option Region} {s : NativeState}
    (h : NativeReach ⟨r, some false⟩ s) : NativeOffInv s := by
  induction h with
  | mount => exact ⟨rfl, rfl, rfl, rfl, rfl⟩
  | step e hprev hstep ih =>
    obtain ⟨i1, i2, i3, i4, i5⟩ := ih
    cases e with
    | permissionDenied =>
      simp only [nativeStep] at hstep
      rw [if_neg (by simp [i2])] at hstep
      exact absurd hstep (by simp)
    | locationSuccess c =>
      simp only [nativeStep] at hstep
      rw [if_neg (by simp [i2])] at hstep
      exact absurd hstep (by simp)
    | locationFailure =>
      simp only [nativeStep] at hstep
      rw [if_neg (by simp [i2])] at hstep
      exact absurd hstep (by simp)
    | regionChange rg =>
      simp only [nativeStep] at hstep
      split at hstep
      · rw [← Option.some.inj hstep]
        exact ⟨i1, i2, i3, i4, i5⟩
      · exact absurd hstep (by simp)

/-! ## Further characterizations of the web effect bodies -/

/-- With location display off, the location effect does nothing. -/
lemma runLocationEffect_off (env : WebEnv) (s : WebState)
    (h : s.showUserLocation = false) : runLocationEffect env s = s := by
  unfold runLocationEffect
  simp [h]

/-- With location display on in a geolocation-capable browser, the
location effect issues exactly one query. -/
lemma runLocationEffect_on (env : WebEnv) (s : WebState)
    (h : s.showUserLocation = true) (hn : env.navigatorDefined = true)
    (hg : env.geolocationSupported = true) :
    runLocationEffect env s =
      { s with pendingGeo := s.pendingGeo + 1, geoRequests := s.geoRequests + 1 } := by
  unfold runLocationEffect
  simp [h, hn, hg]

/-- When the SDK is loaded, the div mounted and the API present, the map
initialization effect constructs a fresh map from the snapshot's region. -/
lemma runMapInitEffect_run (snap cur : WebState) (h1 : snap.mapLoaded = true)
    (h2 : snap.errorMsg = none) (h3 : snap.googleAvailable = true) :
    runMapInitEffect snap cur =
      { cur with
        googleMap := some
          { id := cur.mapConstructions + 1
            center := { latitude := (mapRegion snap).latitude
                        longitude := (mapRegion snap).longitude }
            zoomLatDelta := (mapRegion snap).latitudeDelta }
        mapConstructions := cur.mapConstructions + 1 } := by
  unfold runMapInitEffect
  rw [if_neg]
  simp [h1, h2, h3, mapRefMounted]

/-- The map initialization effect never discards an existing map ref. -/
lemma runMapInitEffect_isSome (snap cur : WebState)
    (h : cur.googleMap.isSome = true) :
    (runMapInitEffect snap cur).googleMap.isSome = true := by
  unfold runMapInitEffect
  split
  · exact h
  · simp

/-- An effect pass only writes the error message, the query bookkeeping
and the two instance refs: all other fields are the rendered state's. -/
lemma effectPass_eta (env : WebEnv) (prev snap : WebState) :
    (effectPass env prev snap).initialRegion = snap.initialRegion ∧
    (effectPass env prev snap).showUserLocation = snap.showUserLocation ∧
    (effectPass env prev snap).position = snap.position ∧
    (effectPass env prev snap).mapLoaded = snap.mapLoaded ∧
    (effectPass env prev snap).googleAvailable = snap.googleAvailable ∧
    (effectPass env prev snap).scriptInjected = snap.scriptInjected ∧
    (effectPass env prev snap).scriptInDoc = snap.scriptInDoc := by
  unfold effectPass
  split_ifs <;>
    simp [runLocationEffect_eta, runMapInitEffect_eta, runMarkerEffect_eta]

/-- An effect pass never discards an existing map ref. -/
lemma effectPass_googleMap_isSome (env : WebEnv) (prev snap : WebState)
    (h : snap.googleMap.isSome = true) :
    (effectPass env prev snap).googleMap.isSome = true := by
  have hl : ∀ t, (runLocationEffect env t).googleMap = t.googleMap :=
    fun t => (runLocationEffect_eta env t).2.2.2.2.2.1
  have hk : ∀ a b : WebState, (runMarkerEffect a b).googleMap = b.googleMap :=
    fun a b => (runMarkerEffect_eta a b).2.2.2.2.2.2.1
  unfold effectPass
  split_ifs <;> simp only [hl, hk] <;>
    first
      | exact h
      | exact runMapInitEffect_isSome _ _ (by rw [hl]; exact h)
      | exact runMapInitEffect_isSome _ _ h

lemma wReach1 : WebReach ⟨true, true⟩ ⟨none, none⟩ true wState1 :=
  WebReach.step (.geoSuccess { latitude := 10, longitude := 20 })
    WebReach.mount (by decide)

lemma wReach2 : WebReach ⟨true, true⟩ ⟨none, none⟩ true wState2 :=
  WebReach.step (.setShowUserLocation false) wReach1 (by decide)

lemma wReach3 : WebReach ⟨true, true⟩ ⟨none, none⟩ true wState3 :=
  WebReach.step (.setShowUserLocation true) wReach2 (by decide)

lemma wReach4 : WebReach ⟨true, true⟩ ⟨none, none⟩ true wState4 :=
  WebReach.step (.geoSuccess { latitude := 30, longitude := 40 })
    wReach3 (by decide)

lemma mkRat_922 : mkRat 922 10000 = (0.0922 : ℚ) := by
  norm_num [Rat.mkRat_eq_div]

lemma mkRat_421 : mkRat 421 10000 = (0.0421 : ℚ) := by
  norm_num [Rat.mkRat_eq_div]

/-! ## Claim theorems -/

/-- C1: for every mount of either map implementation with no
caller-supplied `initialRegion` and no position reading obtained, the
initial viewport region equals the fixed default region with latitude
37.78825, longitude -122.4324, latitudeDelta 0.0922, longitudeDelta
0.0421; on web, a map constructed at mount is likewise centered on that
default with its zoom input. -/
theorem C1_default_initial_region :
    (∀ (env : WebEnv) (o : Option Bool) (ga0 : Bool),
      mapRegion (webMount env { initialRegion := none, showUserLocation := o } ga0) =
        { latitude := 37.78825, longitude := -122.4324
          latitudeDelta := 0.0922, longitudeDelta := 0.0421 }) ∧
    (∀ (env : WebEnv) (o : Option Bool) (ga0 : Bool) (g : GMap),
      (webMount env { initialRegion := none, showUserLocation := o } ga0).googleMap =
        some g →
      g.center = { latitude := 37.78825, longitude := -122.4324 } ∧
        g.zoomLatDelta = 0.0922) ∧
    (∀ o : Option Bool,
      (nativeMount { initialRegion := none, showUserLocation := o }).region =
        { latitude := 37.78825, longitude := -122.4324
          latitudeDelta := 0.0922, longitudeDelta := 0.0421 }) := by
  refine ⟨?_, ?_, ?_⟩
  · intro env o ga0
    rw [webMount_char]
    exact defaultRegion_eq
  · intro env o ga0 g hg
    rw [webMount_char] at hg
    dsimp only at hg
    split at hg
    · rw [← Option.some.inj hg]
      constructor
      · show Coords.mk defaultRegion.latitude defaultRegion.longitude = _
        rw [defaultRegion_eq]
      · show defaultRegion.latitudeDelta = _
        rw [defaultRegion_eq]
    · exact absurd hg (by simp)
  · intro o
    exact defaultRegion_eq

/-- Witness for C1 at a concrete mount: a geolocation-capable browser
with the SDK already loaded, no props. -/
theorem C1_default_initial_region_witness :
    mapRegion (webMount ⟨true, true⟩ { initialRegion := none, showUserLocation := none }
        true) =
      { latitude := 37.78825, longitude := -122.4324
        latitudeDelta := 0.0922, longitudeDelta := 0.0421 } ∧
    (GMap.center
        { id := 1
          center := { latitude := mkRat 3778825 100000
                      longitude := mkRat (-1224324) 10000 }
          zoomLatDelta := mkRat 922 10000 } =
      { latitude := 37.78825, longitude := -122.4324 } ∧
      GMap.zoomLatDelta
        { id := 1
          center := { latitude := mkRat 3778825 100000
                      longitude := mkRat (-1224324) 10000 }
          zoomLatDelta := mkRat 922 10000 } = 0.0922) :=
  ⟨C1_default_initial_region.1 ⟨true, true⟩ none true,
   C1_default_initial_region.2.1 ⟨true, true⟩ none true _ (by decide)⟩

/-- C2: in both implementations, a recorded error message is rendered as
the error text and the map surface is not rendered; no state renders
both; and every recorded error is one of the boundary errors (geolocation
unsupported, location query failure, script load failure on web;
permission denied, location failure on native). -/
theorem C2_error_excludes_map :
    (∀ (s : WebState) (m : String), s.errorMsg = some m →
      webRender s = WebRender.errorText m ∧ webRender s ≠ WebRender.mapDiv) ∧
    (∀ (s : NativeState) (m : String), s.errorMsg = some m →
      nativeRender s = NativeRender.errorText m ∧
      ∀ (rg : Region) (b : Bool) (mks : List Coords),
        nativeRender s ≠ NativeRender.mapView rg b mks) ∧
    (∀ (s : WebState) (m : String),
      ¬(webRender s = WebRender.errorText m ∧ webRender s = WebRender.mapDiv)) ∧
    (∀ (s : NativeState) (m : String) (rg : Region) (b : Bool) (mks : List Coords),
      ¬(nativeRender s = NativeRender.errorText m ∧
        nativeRender s = NativeRender.mapView rg b mks)) ∧
    (∀ (env : WebEnv) (p : WebProps) (ga0 : Bool) (s : WebState),
      WebReach env p ga0 s → errOK s.errorMsg) ∧
    (∀ (p : NativeProps) (s : NativeState), NativeReach p s →
      s.errorMsg = none ∨ s.errorMsg = some permDeniedMsg ∨
        s.errorMsg = some nativeLocErrMsg) := by
  refine ⟨?_, ?_, ?_, ?_, ?_, ?_⟩
  · intro s m h
    constructor
    · simp [webRender, h]
    · simp [webRender, h]
  · intro s m h
    constructor
    · simp [nativeRender, h]
    · intro rg b mks
      simp [nativeRender, h]
  · rintro s m ⟨h1, h2⟩
    rw [h1] at h2
    exact WebRender.noConfusion h2
  · rintro s m rg b mks ⟨h1, h2⟩
    rw [h1] at h2
    exact NativeRender.noConfusion h2
  · intro env p ga0 s h
    exact webReach_errOK h
  · intro p s h
    exact (nativeReach_inv h).2.2

/-- Witness for C2: a web mount in a geolocation-free browser shows the
unsupported-geolocation text and no map; a native mount whose permission
request is denied shows the denial text and no map view. -/
theorem C2_error_excludes_map_witness :
    (webRender (webMount ⟨true, false⟩ { initialRegion := none, showUserLocation := none }
        true) = WebRender.errorText geoUnsupportedMsg ∧
      webRender (webMount ⟨true, false⟩ { initialRegion := none, showUserLocation := none }
        true) ≠ WebRender.mapDiv) ∧
    (nativeRender ((nativeStep (nativeMount { initialRegion := none, showUserLocation := none })
        .permissionDenied).getD default) = NativeRender.errorText permDeniedMsg ∧
      nativeRender ((nativeStep (nativeMount { initialRegion := none, showUserLocation := none })
        .permissionDenied).getD default) ≠ NativeRender.mapView defaultRegion true []) :=
  ⟨C2_error_excludes_map.1 _ geoUnsupportedMsg rfl,
   (C2_error_excludes_map.2.1 _ permDeniedMsg rfl).1,
   (C2_error_excludes_map.2.1 _ permDeniedMsg rfl).2 defaultRegion true []⟩

/-- C3 counterexample: the zoom computed from latitudeDelta 0.0922 is not
approximately 9.47 — it differs from 9.47 by more than 0.03 (its actual
value is about 9.431). -/
theorem C3_zoom_not_947 : ¬ |zoom 0.0922 - 9.47| ≤ 0.03 := by
  intro habs
  have h1 := (abs_le.mp habs).1
  have h2 := zoom_00922_lt
  linarith

/-- C3 (amended): the zoom level is the deterministic pure function
zoom(d) = log2(360 / d) − 2.5 of the latitude delta, characterized by
2 ^ (zoom d + 2.5) = 360 / d for every positive d; at latitudeDelta
0.0922 its value is approximately 9.43 (within 0.01), not 9.47. -/
theorem C3_zoom_formula :
    (∀ d : ℝ, 0 < d → (2 : ℝ) ^ (zoom d + 2.5) = 360 / d) ∧
    |zoom 0.0922 - 9.43| < 0.01 := by
  refine ⟨zoom_char, ?_⟩
  rw [abs_lt]
  constructor
  · have := lt_zoom_00922
    linarith
  · have := zoom_00922_lt
    linarith

/-- Witness for C3 at the concrete latitude delta 0.0922. -/
theorem C3_zoom_formula_witness :
    (2 : ℝ) ^ (zoom 0.0922 + 2.5) = 360 / 0.0922 :=
  C3_zoom_formula.1 0.0922 (by norm_num)

/-- C4 counterexample: in the web implementation, the mount (with the SDK
already loaded) constructs the map once, and a subsequent position
reading that changes the tracked center inputs constructs a second map
object within the same mount. -/
theorem C4_map_reconstructed :
    wState0.mapConstructions = 1 ∧
    wState1.mapConstructions = 2 ∧
    webStep ⟨true, true⟩ wState0 (.geoSuccess { latitude := 10, longitude := 20 }) =
      some wState1 ∧
    wState0.googleMap.map GMap.id = some 1 ∧
    wState1.googleMap.map GMap.id = some 2 := by
  decide

/-- C4 (amended): the initialization effect re-runs whenever its tracked
inputs change: from any state with an outstanding reading, a loaded SDK,
a mounted map div and no error, a position reading that changes the
tracked center inputs constructs a further map object (one more
construction, a fresh instance centered on the reading). -/
theorem C4_reinit_on_center_change :
    ∀ (env : WebEnv) (s : WebState) (c : Coords),
      s.pendingGeo ≠ 0 → s.mapLoaded = true → s.googleAvailable = true →
      s.errorMsg = none →
      depsMapInit s ≠
        depsMapInit { s with position := some c, pendingGeo := s.pendingGeo - 1 } →
      (webStep env s (.geoSuccess c)).map
          (fun s' => (s'.mapConstructions, s'.googleMap)) =
        some (s.mapConstructions + 1, some
          { id := s.mapConstructions + 1
            center := { latitude := c.latitude, longitude := c.longitude }
            zoomLatDelta := mkRat 922 10000 }) := by
  intro env s c hpend hml hga herr hM
  have hboth :
      (effectPass env s
          { s with position := some c, pendingGeo := s.pendingGeo - 1 }).mapConstructions
        = s.mapConstructions + 1 ∧
      (effectPass env s
          { s with position := some c, pendingGeo := s.pendingGeo - 1 }).googleMap
        = some
          { id := s.mapConstructions + 1
            center := { latitude := c.latitude, longitude := c.longitude }
            zoomLatDelta := mkRat 922 10000 } := by
    set s1 : WebState := { s with position := some c, pendingGeo := s.pendingGeo - 1 }
      with hs1
    have hmk := runMarkerEffect_eta
    have hrun := runMapInitEffect_run s1 (runLocationEffect env s1) hml herr hga
    unfold effectPass
    by_cases hK : depsMarker s ≠ depsMarker s1
    · rw [if_pos hK, if_pos hM]
      by_cases hL : depsLocation s ≠ depsLocation s1
      · rw [if_pos hL, hrun]
        constructor
        · rw [(hmk s1 _).2.2.2.2.2.2.2.2.2.2.2]
          exact congrArg (fun n => n + 1)
            (runLocationEffect_eta env s1).2.2.2.2.2.2.2.2.2.1
        · rw [(hmk s1 _).2.2.2.2.2.2.1]
          rw [(runLocationEffect_eta env s1).2.2.2.2.2.2.2.2.2.1]
          simp [mapRegion]
      · rw [if_neg hL, runMapInitEffect_run s1 s1 hml herr hga]
        constructor
        · rw [(hmk s1 _).2.2.2.2.2.2.2.2.2.2.2]
        · rw [(hmk s1 _).2.2.2.2.2.2.1]
          simp [mapRegion]
    · rw [if_neg hK, if_pos hM]
      by_cases hL : depsLocation s ≠ depsLocation s1
      · rw [if_pos hL, hrun]
        constructor
        · exact congrArg (fun n => n + 1)
            (runLocationEffect_eta env s1).2.2.2.2.2.2.2.2.2.1
        · rw [(runLocationEffect_eta env s1).2.2.2.2.2.2.2.2.2.1]
          simp [mapRegion]
      · rw [if_neg hL, runMapInitEffect_run s1 s1 hml herr hga]
        constructor
        · rfl
        · simp [mapRegion]
  simp only [webStep]
  rw [if_neg hpend, Option.map_some']
  exact congrArg some (Prod.ext_iff.mpr ⟨hboth.1, hboth.2⟩)

/-- Witness for C4 (amended) at the concrete mount state. -/
theorem C4_reinit_on_center_change_witness :
    (webStep ⟨true, true⟩ wState0
        (.geoSuccess { latitude := 10, longitude := 20 })).map
        (fun s' => (s'.mapConstructions, s'.googleMap)) =
      some (wState0.mapConstructions + 1, some
        { id := wState0.mapConstructions + 1
          center := { latitude := 10, longitude := 20 }
          zoomLatDelta := mkRat 922 10000 }) :=
  C4_reinit_on_center_change ⟨true, true⟩ wState0 { latitude := 10, longitude := 20 }
    (by decide) (by decide) (by decide) (by decide) (by decide)

/-- C5 counterexample: a reachable web state (first reading at (10, 20),
location display toggled off and on, second reading at (30, 40)) in which
location display is on, a reading exists, the current map instance is the
third one constructed — yet the unique marker is still attached to the
second, replaced map instance, so no marker sits on the map being
rendered. -/
theorem C5_marker_not_on_current_map :
    WebReach ⟨true, true⟩ ⟨none, none⟩ true wState4 ∧
    wState4.showUserLocation = true ∧
    wState4.position = some { latitude := 30, longitude := 40 } ∧
    wState4.googleMap.map GMap.id = some 3 ∧
    wState4.userMarker.map GMarker.mapId = some (some 2) ∧
    wState4.userMarker.map GMarker.pos = some { latitude := 30, longitude := 40 } :=
  ⟨wReach4, by decide, by decide, by decide, by decide, by decide⟩

/-- C5 (amended): in every reachable web state with a reading, location
display on and a constructed map, exactly one marker handle exists
(creations exceed removals by exactly one) and it carries the reading's
coordinates; it is attached to the map instance that was current when it
was created, which after a position-triggered re-initialization need not
be the instance currently rendered.  On native, a reading always renders
exactly one marker at its coordinates. -/
theorem C5_single_marker_at_reading :
    (∀ (env : WebEnv) (p : WebProps) (ga0 : Bool) (s : WebState),
      WebReach env p ga0 s → ∀ c : Coords, s.position = some c →
      s.showUserLocation = true → s.googleMap.isSome = true →
      (∃ mk, s.userMarker = some mk ∧ mk.pos = c) ∧
      s.markerCreations = s.markerRemovals + 1) ∧
    (∀ (p : NativeProps) (s : NativeState) (c : Coords), NativeReach p s →
      s.location = some c →
      nativeRender s = NativeRender.mapView s.region s.showUserLocation
        [{ latitude := c.latitude, longitude := c.longitude }]) := by
  constructor
  · intro env p ga0 s h c hpos hsul hmap
    obtain ⟨i1, i2, i3, i4, i5⟩ := webReach_inv h
    have hm := i4 hsul hmap (by simp [hpos])
    obtain ⟨mk, hmk⟩ := Option.isSome_iff_exists.mp hm
    have h3 := i3 mk hmk
    have hpc : mk.pos = c := by
      have : some c = some mk.pos := by rw [← hpos]; exact h3.2.1
      exact (Option.some.inj this).symm
    refine ⟨⟨mk, hmk, hpc⟩, ?_⟩
    rw [hmk] at i5
    simpa using i5
  · intro p s c h hloc
    have hi := nativeReach_inv h
    have herr := (hi.2.1 (by simp [hloc])).1
    simp [nativeRender, herr, hloc]

/-- Witness for C5 at the reachable state after the first reading. -/
theorem C5_single_marker_at_reading_witness :
    ((∃ mk, wState1.userMarker = some mk ∧
        mk.pos = { latitude := 10, longitude := 20 }) ∧
      wState1.markerCreations = wState1.markerRemovals + 1) ∧
    nativeRender ((nativeStep (nativeMount { initialRegion := none, showUserLocation := none })
        (.locationSuccess { latitude := 10, longitude := 20 })).getD default) =
      NativeRender.mapView
        { latitude := 10, longitude := 20
          latitudeDelta := mkRat 922 10000, longitudeDelta := mkRat 421 10000 }
        true [{ latitude := 10, longitude := 20 }] :=
  ⟨C5_single_marker_at_reading.1 ⟨true, true⟩ ⟨none, none⟩ true wState1 wReach1
      { latitude := 10, longitude := 20 } (by decide) (by decide) (by decide),
   C5_single_marker_at_reading.2 { initialRegion := none, showUserLocation := none } _
      { latitude := 10, longitude := 20 }
      (NativeReach.step (.locationSuccess { latitude := 10, longitude := 20 })
        NativeReach.mount (by decide))
      (by decide)⟩

/-- C6: toggling `showUserLocation` off while a marker exists removes the
marker from the map and nulls the ref (one more `setMap(null)` call);
from a reachable state with the map present, toggling it back on and
receiving a reading yields a marker at the reading's coordinates; and in
every reachable state the number of markers still attached (creations
minus removals) is one when the ref is non-null and zero otherwise —
never two. -/
theorem C6_toggle_marker :
    (∀ (env : WebEnv) (s : WebState) (mk : GMarker),
      s.userMarker = some mk → s.showUserLocation = true →
      (webStep env s (.setShowUserLocation false)).map
        (fun s' => (s'.userMarker, s'.markerRemovals)) =
        some (none, s.markerRemovals + 1)) ∧
    (∀ (env : WebEnv) (p : WebProps) (ga0 : Bool) (s : WebState) (c : Coords),
      WebReach env p ga0 s → s.showUserLocation = false →
      s.googleMap.isSome = true →
      ∀ s1 s2, webStep env s (.setShowUserLocation true) = some s1 →
        webStep env s1 (.geoSuccess c) = some s2 →
        ∃ mk, s2.userMarker = some mk ∧ mk.pos = c) ∧
    (∀ (env : WebEnv) (p : WebProps) (ga0 : Bool) (s : WebState),
      WebReach env p ga0 s →
      s.markerCreations = s.markerRemovals +
        (if s.userMarker.isSome then 1 else 0)) := by
  refine ⟨?_, ?_, ?_⟩
  · intro env s mk hmk hsul
    simp only [webStep]
    rw [if_neg (by simp [hsul])]
    set s1 : WebState := { s with showUserLocation := false } with hs1
    have hK : depsMarker s ≠ depsMarker s1 := by
      simp [depsMarker, hs1, hsul]
    have hM : ¬ depsMapInit s ≠ depsMapInit s1 := fun hne => hne rfl
    have hL : depsLocation s ≠ depsLocation s1 := by
      simp [depsLocation, hs1, hsul]
    have hpass : (effectPass env s s1).userMarker = none ∧
        (effectPass env s s1).markerRemovals = s.markerRemovals + 1 := by
      unfold effectPass
      rw [if_pos hK, if_neg hM, if_pos hL,
        runLocationEffect_off env s1 (by rw [hs1])]
      unfold runMarkerEffect
      simp [hs1, hmk]
    simp [hpass.1, hpass.2]
  · intro env p ga0 s c hreach hsul hmap s1 s2 hstep1 hstep2
    have hreach2 : WebReach env p ga0 s2 :=
      WebReach.step _ (WebReach.step _ hreach hstep1) hstep2
    obtain ⟨i1, i2, i3, i4, i5⟩ := webReach_inv hreach2
    simp only [webStep] at hstep1
    rw [if_neg (by simp [hsul])] at hstep1
    have he1 : s1 = effectPass env s { s with showUserLocation := true } :=
      (Option.some.inj hstep1).symm
    have h1eta := effectPass_eta env s { s with showUserLocation := true }
    have hsul1 : s1.showUserLocation = true := by rw [he1]; exact h1eta.2.1
    have hmap1 : s1.googleMap.isSome = true := by
      rw [he1]
      exact effectPass_googleMap_isSome _ _ _ hmap
    simp only [webStep] at hstep2
    split at hstep2
    · exact absurd hstep2 (by simp)
    · have he2 : s2 = effectPass env s1
          { s1 with position := some c, pendingGeo := s1.pendingGeo - 1 } :=
        (Option.some.inj hstep2).symm
      have h2eta := effectPass_eta env s1
        { s1 with position := some c, pendingGeo := s1.pendingGeo - 1 }
      have hpos2 : s2.position = some c := by rw [he2]; exact h2eta.2.2.1
      have hsul2 : s2.showUserLocation = true := by
        rw [he2, h2eta.2.1]
        exact hsul1
      have hmap2 : s2.googleMap.isSome = true := by
        rw [he2]
        exact effectPass_googleMap_isSome _ _ _ hmap1
      have hm := i4 hsul2 hmap2 (by simp [hpos2])
      obtain ⟨mk, hmk⟩ := Option.isSome_iff_exists.mp hm
      have h3 := i3 mk hmk
      have hpc : mk.pos = c := by
        have : some c = some mk.pos := by rw [← hpos2]; exact h3.2.1
        exact (Option.some.inj this).symm
      exact ⟨mk, hmk, hpc⟩
  · intro env p ga0 s h
    exact (webReach_inv h).2.2.2.2

/-- Witness for C6 along the concrete toggle trace. -/
theorem C6_toggle_marker_witness :
    (webStep ⟨true, true⟩ wState1 (.setShowUserLocation false)).map
        (fun s' => (s'.userMarker, s'.markerRemovals)) =
      some (none, wState1.markerRemovals + 1) ∧
    (∃ mk, wState4.userMarker = some mk ∧
      mk.pos = { latitude := 30, longitude := 40 }) ∧
    wState0.markerCreations = wState0.markerRemovals +
      (if wState0.userMarker.isSome then 1 else 0) :=
  ⟨C6_toggle_marker.1 ⟨true, true⟩ wState1
      { pos := { latitude := 10, longitude := 20 }, mapId := some 2 }
      (by decide) (by decide),
   C6_toggle_marker.2.1 ⟨true, true⟩ ⟨none, none⟩ true wState2
      { latitude := 30, longitude := 40 } wReach2 (by decide) (by decide)
      wState3 wState4 (by decide) (by decide),
   C6_toggle_marker.2.2 ⟨true, true⟩ ⟨none, none⟩ true wState0 WebReach.mount⟩

/-- C7 counterexample: the script effect's guard checks whether
`window.google?.maps` is defined, not whether a provider script element
is present.  On a page that already holds one provider script element
whose load has not finished, a mounting component injects a second
element — injection is not skipped although the provider's script is
already present in the page. -/
theorem C7_duplicate_injection :
    pageScriptEffect { googleLoaded := false, providerScripts := 1 } =
      ({ googleLoaded := false, providerScripts := 2 }, true) := by
  decide

/-- C7 (amended): injection is skipped exactly when the provider's API
object is already available (the script has finished loading); per mount
the script effect runs once, and no later event injects again or removes
the element; mounting with the SDK unloaded injects exactly one element;
and unmounting removes the injected element (in particular when it has
not finished loading). -/
theorem C7_script_lifecycle :
    (∀ pg : PageState, pg.googleLoaded = true → pageScriptEffect pg = (pg, false)) ∧
    (∀ pg : PageState, pg.googleLoaded = false →
      pageScriptEffect pg =
        ({ pg with providerScripts := pg.providerScripts + 1 }, true)) ∧
    (∀ (env : WebEnv) (s : WebState) (e : WebEvent) (s' : WebState),
      webStep env s e = some s' →
      s'.scriptInjected = s.scriptInjected ∧ s'.scriptInDoc = s.scriptInDoc) ∧
    (∀ (env : WebEnv) (p : WebProps),
      (webMount env p false).scriptInjected = true ∧
      (webMount env p false).scriptInDoc = true ∧
      (webMount env p true).scriptInjected = false) ∧
    (∀ s : WebState, (webUnmount s).scriptInDoc = false) := by
  refine ⟨?_, ?_, ?_, ?_, ?_⟩
  · intro pg h
    unfold pageScriptEffect
    rw [if_pos h]
  · intro pg h
    unfold pageScriptEffect
    rw [if_neg (by simp [h])]
  · intro env s e s' h
    cases e with
    | geoSuccess c =>
      simp only [webStep] at h
      split at h
      · exact absurd h (by simp)
      · rw [← Option.some.inj h]
        exact ⟨(effectPass_eta env s _).2.2.2.2.2.1, (effectPass_eta env s _).2.2.2.2.2.2⟩
    | geoError m =>
      simp only [webStep] at h
      split at h
      · exact absurd h (by simp)
      · rw [← Option.some.inj h]
        exact ⟨(effectPass_eta env s _).2.2.2.2.2.1, (effectPass_eta env s _).2.2.2.2.2.2⟩
    | scriptLoaded =>
      simp only [webStep] at h
      split at h
      · rw [← Option.some.inj h]
        exact ⟨(effectPass_eta env s _).2.2.2.2.2.1, (effectPass_eta env s _).2.2.2.2.2.2⟩
      · exact absurd h (by simp)
    | scriptError =>
      simp only [webStep] at h
      split at h
      · rw [← Option.some.inj h]
        exact ⟨(effectPass_eta env s _).2.2.2.2.2.1, (effectPass_eta env s _).2.2.2.2.2.2⟩
      · exact absurd h (by simp)
    | setShowUserLocation b =>
      simp only [webStep] at h
      split at h
      · exact absurd h (by simp)
      · rw [← Option.some.inj h]
        exact ⟨(effectPass_eta env s _).2.2.2.2.2.1, (effectPass_eta env s _).2.2.2.2.2.2⟩
    | setInitialRegion r =>
      simp only [webStep] at h
      split at h
      · exact absurd h (by simp)
      · rw [← Option.some.inj h]
        exact ⟨(effectPass_eta env s _).2.2.2.2.2.1, (effectPass_eta env s _).2.2.2.2.2.2⟩
  · intro env p
    rw [webMount_char, webMount_char]
    exact ⟨rfl, rfl, rfl⟩
  · intro s
    unfold webUnmount
    split
    · rfl
    · simp_all

/-- Witness for C7 at concrete page states, a concrete step, and a
concrete mount. -/
theorem C7_script_lifecycle_witness :
    pageScriptEffect { googleLoaded := true, providerScripts := 1 } =
      ({ googleLoaded := true, providerScripts := 1 }, false) ∧
    pageScriptEffect { googleLoaded := false, providerScripts := 0 } =
      ({ googleLoaded := false, providerScripts := 1 }, true) ∧
    (wState1.scriptInjected = wState0.scriptInjected ∧
      wState1.scriptInDoc = wState0.scriptInDoc) ∧
    (webUnmount (webMount ⟨true, true⟩ ⟨none, none⟩ false)).scriptInDoc = false :=
  ⟨C7_script_lifecycle.1 _ rfl,
   C7_script_lifecycle.2.1 _ rfl,
   C7_script_lifecycle.2.2.1 ⟨true, true⟩ wState0
     (.geoSuccess { latitude := 10, longitude := 20 }) wState1 (by decide),
   C7_script_lifecycle.2.2.2.2 _⟩

/-- C8: the web viewport precedence — a position reading (with the fixed
deltas) wins over the caller's `initialRegion`, which wins over the
default region; and a map constructed by the initialization effect is
centered on that viewport with its latitude delta as zoom input. -/
theorem C8_region_precedence :
    (∀ (s : WebState) (c : Coords), s.position = some c →
      mapRegion s =
        { latitude := c.latitude, longitude := c.longitude,
          latitudeDelta := 0.0922, longitudeDelta := 0.0421 }) ∧
    (∀ (s : WebState) (r : Region), s.position = none → s.initialRegion = some r →
      mapRegion s = r) ∧
    (∀ s : WebState, s.position = none → s.initialRegion = none →
      mapRegion s =
        { latitude := 37.78825, longitude := -122.4324
          latitudeDelta := 0.0922, longitudeDelta := 0.0421 }) ∧
    (∀ snap cur : WebState, snap.mapLoaded = true → snap.errorMsg = none →
      snap.googleAvailable = true →
      (runMapInitEffect snap cur).googleMap = some
        { id := cur.mapConstructions + 1
          center := { latitude := (mapRegion snap).latitude
                      longitude := (mapRegion snap).longitude }
          zoomLatDelta := (mapRegion snap).latitudeDelta }) := by
  refine ⟨?_, ?_, ?_, ?_⟩
  · intro s c h
    simp [mapRegion, h, mkRat_922, mkRat_421]
  · intro s r h1 h2
    simp [mapRegion, h1, h2]
  · intro s h1 h2
    simp only [mapRegion, h1, h2, Option.getD_none]
    exact defaultRegion_eq
  · intro snap cur h1 h2 h3
    rw [runMapInitEffect_run snap cur h1 h2 h3]

/-- Witness for C8 at concrete states. -/
theorem C8_region_precedence_witness :
    mapRegion wState1 =
      { latitude := 10, longitude := 20,
        latitudeDelta := 0.0922, longitudeDelta := 0.0421 } ∧
    mapRegion { (default : WebState) with
      initialRegion :=
        some { latitude := 1, longitude := 2, latitudeDelta := 3, longitudeDelta := 4 } } =
      { latitude := 1, longitude := 2, latitudeDelta := 3, longitudeDelta := 4 } ∧
    mapRegion (default : WebState) =
      { latitude := 37.78825, longitude := -122.4324
        latitudeDelta := 0.0922, longitudeDelta := 0.0421 } ∧
    (runMapInitEffect wState0 wState0).googleMap = some
      { id := wState0.mapConstructions + 1
        center := { latitude := (mapRegion wState0).latitude
                    longitude := (mapRegion wState0).longitude }
        zoomLatDelta := (mapRegion wState0).latitudeDelta } :=
  ⟨C8_region_precedence.1 wState1 { latitude := 10, longitude := 20 } (by decide),
   C8_region_precedence.2.1 _ _ (by decide) (by decide),
   C8_region_precedence.2.2.1 _ (by decide) (by decide),
   C8_region_precedence.2.2.2 wState0 wState0 (by decide) (by decide) (by decide)⟩

/-- C9: the `PlatformMap` screen component never forwards its props: the
child `Maps` element always gets the empty prop list, so the mounted map
behaves exactly as a call of `Maps` with no props. -/
theorem C9_props_not_forwarded :
    (∀ p : PlatformMapProps, platformMapChildProps p =
      { initialRegion := none, showUserLocation := none }) ∧
    (∀ (p : PlatformMapProps) (env : WebEnv) (ga0 : Bool),
      webMount env (platformMapChildProps p) ga0 =
        webMount env { initialRegion := none, showUserLocation := none } ga0) :=
  ⟨fun _ => rfl, fun _ _ _ => rfl⟩

/-- C10: `showUserLocation` defaults to `true` when omitted (a mount with
no value behaves exactly as a mount with `true`); and with
`showUserLocation` fixed at `false`, no geolocation query or permission
request is ever issued, the location-path error messages are never set
(on web at most the script failure can occur), and no user-location
marker ever exists. -/
theorem C10_sul_default_and_off :
    (∀ (env : WebEnv) (r : Option Region) (ga0 : Bool),
      webMount env { initialRegion := r, showUserLocation := none } ga0 =
        webMount env { initialRegion := r, showUserLocation := some true } ga0) ∧
    (∀ r : Option Region,
      nativeMount { initialRegion := r, showUserLocation := none } =
        nativeMount { initialRegion := r, showUserLocation := some true }) ∧
    (∀ (env : WebEnv) (r : Option Region) (ga0 : Bool) (s : WebState),
      WebReachFixed env { initialRegion := r, showUserLocation := some false } ga0 s →
      s.geoRequests = 0 ∧ s.pendingGeo = 0 ∧ s.userMarker = none ∧
      s.markerCreations = 0 ∧
      (s.errorMsg = none ∨ s.errorMsg = some scriptFailMsg)) ∧
    (∀ (r : Option Region) (s : NativeState),
      NativeReach { initialRegion := r, showUserLocation := some false } s →
      s.permRequests = 0 ∧ s.location = none ∧ s.errorMsg = none ∧
      nativeRender s = NativeRender.mapView s.region false []) := by
  refine ⟨fun _ _ _ => rfl, fun _ => rfl, ?_, ?_⟩
  · intro env r ga0 s h
    obtain ⟨f1, f2, f3, f4, f5, f6, f7, f8⟩ := webReachFixed_off h
    exact ⟨f4, f3, f5, f6, f8⟩
  · intro r s h
    obtain ⟨i1, i2, i3, i4, i5⟩ := nativeReach_off h
    refine ⟨i3, i4, i5, ?_⟩
    simp [nativeRender, i5, i4, i1]

/-- Witness for C10 at the two mounts with `showUserLocation = false`. -/
theorem C10_sul_default_and_off_witness :
    ((webMount ⟨true, true⟩ { initialRegion := none, showUserLocation := some false }
        true).geoRequests = 0 ∧
      (webMount ⟨true, true⟩ { initialRegion := none, showUserLocation := some false }
        true).pendingGeo = 0 ∧
      (webMount ⟨true, true⟩ { initialRegion := none, showUserLocation := some false }
        true).userMarker = none ∧
      (webMount ⟨true, true⟩ { initialRegion := none, showUserLocation := some false }
        true).markerCreations = 0 ∧
      ((webMount ⟨true, true⟩ { initialRegion := none, showUserLocation := some false }
        true).errorMsg = none ∨
       (webMount ⟨true, true⟩ { initialRegion := none, showUserLocation := some false }
        true).errorMsg = some scriptFailMsg)) ∧
    ((nativeMount { initialRegion := none, showUserLocation := some false }).permRequests
        = 0 ∧
      (nativeMount { initialRegion := none, showUserLocation := some false }).location
        = none ∧
      (nativeMount { initialRegion := none, showUserLocation := some false }).errorMsg
        = none ∧
      nativeRender (nativeMount { initialRegion := none, showUserLocation := some false })
        = NativeRender.mapView
            (nativeMount { initialRegion := none, showUserLocation := some false }).region
            false []) :=
  ⟨C10_sul_default_and_off.2.2.1 ⟨true, true⟩ none true _ WebReachFixed.mount,
   C10_sul_default_and_off.2.2.2 none _ NativeReach.mount⟩
